import Mathlib

/-!
Shallow embedding of the `dotfiles-m1` Python operator scripts:

* `scripts/python/script_logger.py` — the `ScriptLogger` façade over
  `logging.Logger` (idempotent configuration, level-colored console
  formatter, plain file formatter);
* `scripts/python/pg_upgrade.py` — `run_cmd` and `backup_pg_databases`;
* `scripts/python/update.py` — `run_cmd` with an `ignore_errors` flag.

Python's `logging` registry is modeled as a total map from logger names to
logger states (`logging.getLogger` creates an entry on first access, so the
observable registry is exactly such a map, defaulting to a fresh state).
A child process is an external collaborator: its observable behavior is
either an exit code or a failure to launch (`OSError`), and the runners are
functions from that behavior to the logs they emit plus the control-flow
outcome (`return` / `sys.exit` / uncaught exception).
-/

namespace DotfilesM1

/-! ## Python `logging` severity constants -/

def DEBUG : Nat := 10
def INFO : Nat := 20
def WARNING : Nat := 30
def ERROR : Nat := 40
def CRITICAL : Nat := 50

/-- `logging.getLevelName`, restricted to the numeric levels this code uses. -/
def getLevelName (n : Nat) : String :=
  if n = 10 then "DEBUG"
  else if n = 20 then "INFO"
  else if n = 30 then "WARNING"
  else if n = 40 then "ERROR"
  else if n = 50 then "CRITICAL"
  else "Level " ++ toString n

/-! ## Formatters (`script_logger.py` lines 20–59, 72–81) -/

/-- A log record, with the fields the formatters read (`%(asctime)s`,
`%(levelname)s`, `%(message)s` and the numeric level). -/
structure LogRecord where
  levelno : Nat
  levelname : String
  asctime : String
  msg : String
  deriving DecidableEq, Repr

/-- `ScriptLogger.level_colors`: mapping of numeric levels to ANSI color codes. -/
def level_colors (n : Nat) : Option String :=
  if n = 10 then some "\x1b[36m"       -- cyan
  else if n = 20 then some "\x1b[32m"  -- green
  else if n = 30 then some "\x1b[33m"  -- yellow
  else if n = 40 then some "\x1b[31m"  -- red
  else if n = 50 then some "\x1b[35m"  -- magenta
  else none

/-- `ScriptLogger.reset_code`. -/
def reset_code : String := "\x1b[0m"

/-- `logging.Formatter` with `ScriptLogger.msg_format` and
`ScriptLogger.date_format`: `"%(asctime)s [%(levelname)s] %(message)s"`. -/
def plainFormat (record : LogRecord) : String :=
  record.asctime ++ " [" ++ record.levelname ++ "] " ++ record.msg

/-- `_LevelColorFormatter.format`. The Python method mutates
`record.levelname`, calls `super().format(record)` inside a `try`, and
restores the original level name in a `finally` (so the restore happens even
when the base formatting raises). We model the base call as an arbitrary
fallible function and return both its outcome and the record's final state. -/
def levelColorFormat (base : LogRecord → Except String String)
    (record : LogRecord) : Except String String × LogRecord :=
  let original_levelname := record.levelname
  match level_colors record.levelno with
  | some color =>
      let colored := { record with
        levelname := color ++ original_levelname ++ reset_code }
      (base colored, { colored with levelname := original_levelname })
  | none =>
      (base record, { record with levelname := original_levelname })

/-- The console line produced by `_LevelColorFormatter` when the base
`logging.Formatter.format` succeeds (it formats with `plainFormat`). -/
def consoleColorLine (record : LogRecord) : Except String String :=
  (levelColorFormat (fun r => Except.ok (plainFormat r)) record).1

/-- Whether a string contains the ANSI escape character. -/
def hasEsc (s : String) : Bool :=
  s.data.any (fun c => c = '\x1b')

/-! ## Logger registry and `ScriptLogger.__init__` / `_configure` -/

/-- Which formatter a handler carries: the default plain formatter or the
`_LevelColorFormatter`. -/
inductive FormatterKind
  | plain
  | levelColor
  deriving DecidableEq, Repr

/-- An output sink: `logging.StreamHandler(sys.stdout)` or
`logging.FileHandler(path, encoding="utf-8")`. -/
inductive SinkKind
  | consoleStdout
  | file (path : String)
  deriving DecidableEq, Repr

/-- A configured handler: a sink plus the formatter set on it. -/
structure Handler where
  sink : SinkKind
  formatter : FormatterKind
  deriving DecidableEq, Repr

/-- The state `logging.getLogger(name)` carries that this code touches. -/
structure LoggerState where
  level : Nat
  propagate : Bool
  handlers : List Handler
  deriving DecidableEq, Repr

/-- A logger fresh out of `logging.getLogger`: level `NOTSET` (0),
`propagate = True`, no handlers. -/
def freshLoggerState : LoggerState :=
  { level := 0, propagate := true, handlers := [] }

/-- The process-wide logger registry, viewed as a total map (names that were
never configured map to the fresh state `getLogger` would create). -/
def Registry := String → LoggerState

/-- The empty registry. -/
def emptyRegistry : Registry := fun _ => freshLoggerState

/-- Point update of the registry. -/
def Registry.set (reg : Registry) (name : String) (st : LoggerState) : Registry :=
  fun n => if n = name then st else reg n

namespace ScriptLogger

/-- `ScriptLogger._configure`, as a transformer of the named logger's state.
If the logger already has handlers it is returned unchanged (the early
`return` that avoids duplicate handlers); otherwise the level and propagate
flag are set and the requested handlers are attached: a console handler
first (with the color formatter when `colorize` is set, else the instance
formatter), then a file handler (always with the instance formatter). -/
def configure (st : LoggerState) (level : Nat) (propagate : Bool)
    (formatter : FormatterKind) (colorize : Bool)
    (log_to_console : Bool) (log_to_file : Option String) : LoggerState :=
  if st.handlers = [] then
    let st1 : LoggerState := { st with level := level, propagate := propagate }
    let st2 : LoggerState :=
      if log_to_console then
        let console_formatter :=
          if colorize then FormatterKind.levelColor else formatter
        { st1 with handlers := st1.handlers ++
            [{ sink := SinkKind.consoleStdout, formatter := console_formatter }] }
      else st1
    match log_to_file with
    | some path =>
        { st2 with handlers := st2.handlers ++
            [{ sink := SinkKind.file path, formatter := formatter }] }
    | none => st2
  else st

/-- The `ScriptLogger` instance object: the fields `__init__` stores. -/
structure Obj where
  name : String
  level : Nat
  propagate : Bool
  formatter : FormatterKind
  colorize : Bool
  deriving DecidableEq, Repr

/-- `ScriptLogger.__init__(name, level, log_to_console, log_to_file,
propagate, formatter, colorize)`: fetch-or-create the named logger, store
the instance fields (`formatter or logging.Formatter(msg_format, date_format)`
becomes `getD .plain`), and run `_configure` on it. Returns the instance and
the updated registry. -/
def init (name : String) (level : Nat) (log_to_console : Bool)
    (log_to_file : Option String) (propagate : Bool)
    (formatter : Option FormatterKind) (colorize : Bool)
    (reg : Registry) : Obj × Registry :=
  let fmt := formatter.getD FormatterKind.plain
  let st := reg name
  let st' := configure st level propagate fmt colorize log_to_console log_to_file
  ({ name := name, level := level, propagate := propagate,
     formatter := fmt, colorize := colorize },
   reg.set name st')

/-- Classmethod `ScriptLogger.log_to_console`. -/
def log_to_console (name : String) (level : Nat) (propagate : Bool)
    (colorize : Bool) (reg : Registry) : Obj × Registry :=
  init name level true none propagate none colorize reg

/-- Classmethod `ScriptLogger.log_to_console_and_file`. -/
def log_to_console_and_file (name : String) (log_file : String) (level : Nat)
    (propagate : Bool) (colorize : Bool) (reg : Registry) : Obj × Registry :=
  init name level true (some log_file) propagate none colorize reg

end ScriptLogger

/-! ## Record emission (`logging.Logger.debug/info/...` forwarding) -/

/-- `logging.Logger.getEffectiveLevel`: the logger's own level if set,
otherwise the ancestor chain's — for these top-level loggers, the root
logger's default `WARNING` (30). -/
def getEffectiveLevel (st : LoggerState) : Nat :=
  if st.level ≠ 0 then st.level else 30

/-- `logging.Logger.isEnabledFor`. -/
def isEnabledFor (st : LoggerState) (level : Nat) : Bool :=
  decide (getEffectiveLevel st ≤ level)

/-- `logging.Logger.makeRecord`, restricted to the fields we track. -/
def makeRecord (levelno : Nat) (asctime msg : String) : LogRecord :=
  { levelno := levelno, levelname := getLevelName levelno,
    asctime := asctime, msg := msg }

/-- `logging.Logger.callHandlers` restricted to the logger's own handlers:
each attached handler (handler levels are `NOTSET` = 0 here, which never
filters) handles the record exactly once. -/
def callHandlers (st : LoggerState) (record : LogRecord) :
    List (Handler × LogRecord) :=
  st.handlers.map (fun h => (h, record))

/-- A `ScriptLogger.debug/info/warning/error/critical` call forwarded to
`logging.Logger`: emit one record per handler when the severity passes
`isEnabledFor`, nothing otherwise. -/
def loggerLog (st : LoggerState) (levelno : Nat) (asctime msg : String) :
    List (Handler × LogRecord) :=
  if isEnabledFor st levelno then callHandlers st (makeRecord levelno asctime msg)
  else []

/-! ## Command runners (`pg_upgrade.py` and `update.py`) -/

/-- The launch errors `subprocess.run` can raise without the child ever
running (`FileNotFoundError`, `PermissionError` — both `OSError`s, and not
`subprocess.CalledProcessError`). -/
inductive OSError
  | fileNotFound
  | permissionDenied
  deriving DecidableEq, Repr

/-- Observable behavior of one `subprocess.run(cmd, check=True)` call:
either the child ran and exited with a code, or the launch itself failed. -/
inductive ChildBehavior
  | exited (returncode : Int)
  | launchFailure (e : OSError)
  deriving DecidableEq, Repr

/-- How a runner call ends: normal return, `sys.exit(code)` terminating the
host process, or an uncaught exception propagating to the caller. -/
inductive RunResult
  | returned
  | exitedProcess (code : Int)
  | raised (e : OSError)
  deriving DecidableEq, Repr

/-- What a runner call produces: the log lines it emitted, as
(numeric level, formatted message) pairs in order, and how it ended. -/
structure RunOutcome where
  logs : List (Nat × String)
  result : RunResult
  deriving DecidableEq, Repr

/-- Number of emitted lines at a given severity. -/
def countAtLevel (lvl : Nat) (logs : List (Nat × String)) : Nat :=
  (logs.filter (fun p => p.1 == lvl)).length

/-- The `"Command failed with exit code %d: %s"` message both scripts log
at ERROR. -/
def failMsg (code : Int) (cmd : List String) : String :=
  "Command failed with exit code " ++ toString code ++ ": "
    ++ String.intercalate " " cmd

namespace PgUpgrade

/-- `pg_upgrade.run_cmd(cmd, logger)`: log the space-joined invocation at
INFO, run the command with `check=True`; on `CalledProcessError` (nonzero
exit) log at ERROR and `sys.exit(e.returncode)`; an `OSError` from the
launch is not caught and propagates. -/
def runCmd (cmd : List String) (child : ChildBehavior) : RunOutcome :=
  let trace : Nat × String := (20, "Running: " ++ String.intercalate " " cmd)
  match child with
  | ChildBehavior.launchFailure e =>
      { logs := [trace], result := RunResult.raised e }
  | ChildBehavior.exited code =>
      if code = 0 then
        { logs := [trace], result := RunResult.returned }
      else
        { logs := [trace, (40, failMsg code cmd)],
          result := RunResult.exitedProcess code }

/-- `Path.unlink(missing_ok=True)`: removal never raises, whether or not
the file currently exists; afterwards the file does not exist. -/
def unlink_missing_ok (_fileExists : Bool) : Except OSError Bool :=
  Except.ok false

/-- Outcome of `backup_pg_databases`: emitted log lines, whether the backup
file exists at the end, and how the call ended. -/
structure BackupOutcome where
  logs : List (Nat × String)
  backupFileExists : Bool
  result : RunResult
  deriving DecidableEq, Repr

/-- `pg_upgrade.backup_pg_databases(pg_dumpall, backup_file, logger)`:
after two INFO lines, `backup_file.open("w")` creates (or truncates) the
backup file and `pg_dumpall` writes into it; on nonzero exit the script
logs at ERROR, unlinks the partial file with `missing_ok=True`, and
`sys.exit`s with the child's code. We track whether the backup file exists
when the call ends. -/
def backup_pg_databases (pg_dumpall : String) (backup_file : String)
    (child : ChildBehavior) : BackupOutcome :=
  let header : List (Nat × String) :=
    [(20, "Creating backup with " ++ pg_dumpall),
     (20, "Backup file: " ++ backup_file)]
  -- `backup_file.open("w")` has created the file before the child runs.
  match child with
  | ChildBehavior.launchFailure e =>
      { logs := header, backupFileExists := true, result := RunResult.raised e }
  | ChildBehavior.exited code =>
      if code = 0 then
        { logs := header ++ [(20, "Backup complete.")],
          backupFileExists := true, result := RunResult.returned }
      else
        match unlink_missing_ok true with
        | Except.ok stillExists =>
            { logs := header ++
                [(40, "Backup failed. Removing partial file: " ++ backup_file)],
              backupFileExists := stillExists,
              result := RunResult.exitedProcess code }
        | Except.error e =>
            { logs := header ++
                [(40, "Backup failed. Removing partial file: " ++ backup_file)],
              backupFileExists := true, result := RunResult.raised e }

end PgUpgrade

namespace Update

/-- `update.run_cmd(cmd, ignore_errors)`: run with `check=True` (no log line
before execution); on nonzero exit either log at WARNING and return
(`ignore_errors=True`) or log at ERROR and `sys.exit(e.returncode)`;
a launch `OSError` is not caught and propagates. -/
def runCmd (cmd : List String) (ignore_errors : Bool)
    (child : ChildBehavior) : RunOutcome :=
  match child with
  | ChildBehavior.launchFailure e =>
      { logs := [], result := RunResult.raised e }
  | ChildBehavior.exited code =>
      if code = 0 then
        { logs := [], result := RunResult.returned }
      else if ignore_errors then
        { logs := [(30, "Command exited with " ++ toString code ++ ": "
            ++ String.intercalate " " cmd)],
          result := RunResult.returned }
      else
        { logs := [(40, failMsg code cmd)],
          result := RunResult.exitedProcess code }

end Update

/-! ## Theorems -/

/-- C2. For every command invocation through a runner with ignore-errors off
(`pg_upgrade.run_cmd` has no flag; `update.run_cmd` with
`ignore_errors=False`), if the child runs and exits with a nonzero code, the
runner logs exactly one ERROR line — the message contains the exit code and
the space-joined invocation — and then terminates the host process with
exactly the child's exit code. -/
theorem c2_nonzero_exit_fail_fast (cmd : List String) (code : Int)
    (hcode : code ≠ 0) :
    countAtLevel 40 (PgUpgrade.runCmd cmd (ChildBehavior.exited code)).logs = 1 ∧
    (40, failMsg code cmd) ∈ (PgUpgrade.runCmd cmd (ChildBehavior.exited code)).logs ∧
    (PgUpgrade.runCmd cmd (ChildBehavior.exited code)).result
      = RunResult.exitedProcess code ∧
    countAtLevel 40 (Update.runCmd cmd false (ChildBehavior.exited code)).logs = 1 ∧
    (40, failMsg code cmd) ∈ (Update.runCmd cmd false (ChildBehavior.exited code)).logs ∧
    (Update.runCmd cmd false (ChildBehavior.exited code)).result
      = RunResult.exitedProcess code ∧
    (∃ s t, failMsg code cmd
      = s ++ toString code ++ t ++ String.intercalate " " cmd) := by
  refine ⟨?_, ?_, ?_, ?_, ?_, ?_, "Command failed with exit code ", ": ", rfl⟩ <;>
    simp [PgUpgrade.runCmd, Update.runCmd, countAtLevel, hcode]

/-- Witness for C2 at `cmd = ["brew", "update"]`, `code = 1`. -/
theorem c2_nonzero_exit_fail_fast_witness :
    (1 : Int) ≠ 0 ∧
    countAtLevel 40 (PgUpgrade.runCmd ["brew", "update"]
      (ChildBehavior.exited 1)).logs = 1 ∧
    (Update.runCmd ["brew", "update"] false (ChildBehavior.exited 1)).result
      = RunResult.exitedProcess 1 :=
  ⟨by decide,
   (c2_nonzero_exit_fail_fast ["brew", "update"] 1 (by decide)).1,
   (c2_nonzero_exit_fail_fast ["brew", "update"] 1 (by decide)).2.2.2.2.2.1⟩

/-- C3. For every command invocation through `update.run_cmd` with
`ignore_errors=True`, if the child runs and exits with a nonzero code, the
runner logs exactly one WARNING line — containing the exit code and the
invocation — and returns normally without terminating the host process. -/
theorem c3_nonzero_exit_ignored_warns (cmd : List String) (code : Int)
    (hcode : code ≠ 0) :
    (Update.runCmd cmd true (ChildBehavior.exited code)).logs
      = [(30, "Command exited with " ++ toString code ++ ": "
          ++ String.intercalate " " cmd)] ∧
    countAtLevel 30 (Update.runCmd cmd true (ChildBehavior.exited code)).logs = 1 ∧
    countAtLevel 40 (Update.runCmd cmd true (ChildBehavior.exited code)).logs = 0 ∧
    (Update.runCmd cmd true (ChildBehavior.exited code)).result
      = RunResult.returned := by
  refine ⟨?_, ?_, ?_, ?_⟩ <;> simp [Update.runCmd, countAtLevel, hcode]

/-- Witness for C3 at `cmd = ["brew", "doctor"]`, `code = 1`. -/
theorem c3_nonzero_exit_ignored_warns_witness :
    (1 : Int) ≠ 0 ∧
    (Update.runCmd ["brew", "doctor"] true (ChildBehavior.exited 1)).result
      = RunResult.returned :=
  ⟨by decide,
   (c3_nonzero_exit_ignored_warns ["brew", "doctor"] 1 (by decide)).2.2.2⟩

/-- C4 counterexample. The claim says every runner invocation with exit
code 0 emits exactly one INFO line (the invocation trace): `update.run_cmd`
logs nothing before execution, so on a zero exit it emits no line at all. -/
theorem c4_counterexample :
    (Update.runCmd ["brew", "list"] false (ChildBehavior.exited 0)).logs = [] ∧
    ¬ countAtLevel 20
      (Update.runCmd ["brew", "list"] false (ChildBehavior.exited 0)).logs = 1 ∧
    (Update.runCmd ["brew", "list"] false (ChildBehavior.exited 0)).result
      = RunResult.returned := by
  refine ⟨rfl, ?_, rfl⟩
  decide

/-- C4 amended. For every command invocation whose child exits 0, the host
process is never terminated and no WARNING or ERROR line is emitted;
`pg_upgrade.run_cmd` emits exactly one INFO line — the space-joined
invocation trace, logged before execution — while `update.run_cmd` emits no
line at all. -/
theorem c4_zero_exit_quiet_success (cmd : List String) (ig : Bool) :
    (PgUpgrade.runCmd cmd (ChildBehavior.exited 0)).result = RunResult.returned ∧
    (PgUpgrade.runCmd cmd (ChildBehavior.exited 0)).logs
      = [(20, "Running: " ++ String.intercalate " " cmd)] ∧
    countAtLevel 20 (PgUpgrade.runCmd cmd (ChildBehavior.exited 0)).logs = 1 ∧
    countAtLevel 30 (PgUpgrade.runCmd cmd (ChildBehavior.exited 0)).logs = 0 ∧
    countAtLevel 40 (PgUpgrade.runCmd cmd (ChildBehavior.exited 0)).logs = 0 ∧
    (Update.runCmd cmd ig (ChildBehavior.exited 0)).result = RunResult.returned ∧
    (Update.runCmd cmd ig (ChildBehavior.exited 0)).logs = [] := by
  refine ⟨?_, ?_, ?_, ?_, ?_, ?_, ?_⟩ <;>
    simp [PgUpgrade.runCmd, Update.runCmd, countAtLevel]

/-- C7. A failure to launch the child at all (binary not found or permission
denied) propagates to the caller as its own failure kind: it is not the
nonzero-exit outcome, the runner logs nothing at ERROR or WARNING for it,
and the `sys.exit` termination path is never taken. -/
theorem c7_launch_failure_propagates (cmd : List String) (ig : Bool)
    (e : OSError) :
    (PgUpgrade.runCmd cmd (ChildBehavior.launchFailure e)).result
      = RunResult.raised e ∧
    (∀ c : Int, (PgUpgrade.runCmd cmd (ChildBehavior.launchFailure e)).result
      ≠ RunResult.exitedProcess c) ∧
    countAtLevel 40 (PgUpgrade.runCmd cmd (ChildBehavior.launchFailure e)).logs = 0 ∧
    countAtLevel 30 (PgUpgrade.runCmd cmd (ChildBehavior.launchFailure e)).logs = 0 ∧
    (Update.runCmd cmd ig (ChildBehavior.launchFailure e)).result
      = RunResult.raised e ∧
    (∀ c : Int, (Update.runCmd cmd ig (ChildBehavior.launchFailure e)).result
      ≠ RunResult.exitedProcess c) ∧
    (Update.runCmd cmd ig (ChildBehavior.launchFailure e)).logs = [] := by
  refine ⟨?_, ?_, ?_, ?_, ?_, ?_, ?_⟩ <;>
    simp [PgUpgrade.runCmd, Update.runCmd, countAtLevel]

/-- C10. If `pg_dumpall` exits nonzero inside `backup_pg_databases`, the
partially written backup file is removed — via `unlink(missing_ok=True)`,
which tolerates the file already being absent — before the host process is
terminated with `pg_dumpall`'s exit code, and exactly one ERROR line is
logged; so no partial backup file remains after a failed backup. -/
theorem c10_failed_backup_removes_partial_file (dump bfile : String)
    (code : Int) (hcode : code ≠ 0) :
    (PgUpgrade.backup_pg_databases dump bfile
      (ChildBehavior.exited code)).backupFileExists = false ∧
    (PgUpgrade.backup_pg_databases dump bfile
      (ChildBehavior.exited code)).result = RunResult.exitedProcess code ∧
    countAtLevel 40 (PgUpgrade.backup_pg_databases dump bfile
      (ChildBehavior.exited code)).logs = 1 ∧
    (∀ b : Bool, PgUpgrade.unlink_missing_ok b = Except.ok false) := by
  refine ⟨?_, ?_, ?_, fun b => rfl⟩ <;>
    simp [PgUpgrade.backup_pg_databases, PgUpgrade.unlink_missing_ok,
      countAtLevel, hcode]

/-- Witness for C10 at `code = 2`. -/
theorem c10_failed_backup_removes_partial_file_witness :
    (2 : Int) ≠ 0 ∧
    (PgUpgrade.backup_pg_databases "pg_dumpall" "backup.sql"
      (ChildBehavior.exited 2)).backupFileExists = false :=
  ⟨by decide,
   (c10_failed_backup_removes_partial_file "pg_dumpall" "backup.sql" 2
     (by decide)).1⟩

/-- Appending strings appends their character data. -/
theorem hasEsc_append (a b : String) :
    hasEsc (a ++ b) = (hasEsc a || hasEsc b) := by
  simp [hasEsc]

/-- C9. `_LevelColorFormatter.format` leaves the record it was handed
unchanged once the call returns — in particular `levelname` keeps its
original value — for every record, color map hit or miss, and every base
formatting outcome including a raising one (the restore is in a `finally`);
hence a record subsequently handed to the uncolored file formatter is
formatted with the plain severity token. -/
theorem c9_format_restores_levelname (base : LogRecord → Except String String)
    (record : LogRecord) :
    (levelColorFormat base record).2 = record ∧
    plainFormat (levelColorFormat base record).2 = plainFormat record := by
  have h2 : (levelColorFormat base record).2 = record := by
    cases record with
    | mk levelno levelname asctime msg =>
      unfold levelColorFormat
      cases level_colors levelno <;> simp
  exact ⟨h2, by rw [h2]⟩

/-- C5. For a record at any level the color map covers, the colorized
console formatter yields the line with the mapped color escape immediately
before the severity token and the reset escape immediately after it, the
rest of the line unstyled; the plain (file-sink) formatting of the same
record contains no escape at all; and the map is exactly
DEBUG→cyan, INFO→green, WARNING→yellow, ERROR→red, CRITICAL→magenta. -/
theorem c5_colorized_console_plain_file (n : Nat) (color : String)
    (h : level_colors n = some color) (t m : String)
    (ht : hasEsc t = false) (hm : hasEsc m = false) :
    (level_colors DEBUG = some "\x1b[36m" ∧ level_colors INFO = some "\x1b[32m" ∧
     level_colors WARNING = some "\x1b[33m" ∧
     level_colors ERROR = some "\x1b[31m" ∧
     level_colors CRITICAL = some "\x1b[35m") ∧
    (∃ p q, consoleColorLine (makeRecord n t m)
        = Except.ok (p ++ color ++ getLevelName n ++ reset_code ++ q) ∧
      hasEsc p = false ∧ hasEsc q = false) ∧
    hasEsc (plainFormat (makeRecord n t m)) = false := by
  have hcase : (n = 10 ∧ color = "\x1b[36m") ∨ (n = 20 ∧ color = "\x1b[32m")
      ∨ (n = 30 ∧ color = "\x1b[33m") ∨ (n = 40 ∧ color = "\x1b[31m")
      ∨ (n = 50 ∧ color = "\x1b[35m") := by
    unfold level_colors at h
    split_ifs at h with h1 h2 h3 h4 h5 <;> simp_all
  obtain ⟨hn, hc⟩ | ⟨hn, hc⟩ | ⟨hn, hc⟩ | ⟨hn, hc⟩ | ⟨hn, hc⟩ := hcase <;>
    subst hn <;> subst hc <;>
    refine ⟨⟨rfl, rfl, rfl, rfl, rfl⟩,
      ⟨t ++ " [", "] " ++ m, ?_, ?_, ?_⟩, ?_⟩ <;>
    simp [consoleColorLine, levelColorFormat, level_colors, makeRecord,
      getLevelName, plainFormat, reset_code, hasEsc_append, ht, hm,
      String.append_assoc] <;>
    first
      | decide
      | congr 1

/-- Witness for C5 at `n = 10` (DEBUG), an escape-free timestamp and
message. -/
theorem c5_colorized_console_plain_file_witness :
    level_colors 10 = some "\x1b[36m" ∧
    hasEsc "2025-11-30 12:00:00" = false ∧ hasEsc "hello" = false ∧
    (∃ p q, consoleColorLine (makeRecord 10 "2025-11-30 12:00:00" "hello")
        = Except.ok (p ++ "\x1b[36m" ++ getLevelName 10 ++ reset_code ++ q) ∧
      hasEsc p = false ∧ hasEsc q = false) ∧
    hasEsc (plainFormat (makeRecord 10 "2025-11-30 12:00:00" "hello")) = false :=
  ⟨rfl, by decide, by decide,
   (c5_colorized_console_plain_file 10 "\x1b[36m" rfl "2025-11-30 12:00:00"
     "hello" (by decide) (by decide)).2.1,
   (c5_colorized_console_plain_file 10 "\x1b[36m" rfl "2025-11-30 12:00:00"
     "hello" (by decide) (by decide)).2.2⟩

/-- C6. For a logger configured with a (positive) threshold `L`, a logging
call at severity `s` emits nothing to any sink when `s < L`, and exactly one
record to each attached sink when `L ≤ s`. -/
theorem c6_threshold_filtering (L s : Nat) (hL : 0 < L) (prop : Bool)
    (hs : List Handler) (t m : String) :
    (s < L →
      loggerLog { level := L, propagate := prop, handlers := hs } s t m = []) ∧
    (L ≤ s →
      loggerLog { level := L, propagate := prop, handlers := hs } s t m
        = hs.map (fun hd => (hd, makeRecord s t m))) ∧
    (L ≤ s →
      (loggerLog { level := L, propagate := prop, handlers := hs } s t m).length
        = hs.length) := by
  have hL' : L ≠ 0 := by omega
  refine ⟨fun hlt => ?_, fun hle => ?_, fun hle => ?_⟩
  · have hns : ¬ L ≤ s := by omega
    simp [loggerLog, isEnabledFor, getEffectiveLevel, callHandlers, hL', hns]
  · simp [loggerLog, isEnabledFor, getEffectiveLevel, callHandlers, hL', hle]
  · simp [loggerLog, isEnabledFor, getEffectiveLevel, callHandlers, hL', hle]

/-- Witness for C6 at `L = 20` (INFO), severities 10 and 30, one console
handler. -/
theorem c6_threshold_filtering_witness :
    (0 : Nat) < 20 ∧
    loggerLog { level := 20, propagate := false,
                handlers := [{ sink := SinkKind.consoleStdout,
                               formatter := FormatterKind.plain }] }
      10 "ts" "m" = [] ∧
    (loggerLog { level := 20, propagate := false,
                 handlers := [{ sink := SinkKind.consoleStdout,
                                formatter := FormatterKind.plain }] }
      30 "ts" "m").length = 1 :=
  ⟨by decide,
   (c6_threshold_filtering 20 10 (by decide) false
     [{ sink := SinkKind.consoleStdout, formatter := FormatterKind.plain }]
     "ts" "m").1 (by decide),
   (c6_threshold_filtering 20 30 (by decide) false
     [{ sink := SinkKind.consoleStdout, formatter := FormatterKind.plain }]
     "ts" "m").2.2 (by decide)⟩

/-- Updating the registry at a name and reading that name gives the update. -/
theorem registry_set_apply (reg : Registry) (name n : String)
    (st : LoggerState) :
    Registry.set reg name st n = if n = name then st else reg n := rfl

/-- Writing back the value already present leaves the registry unchanged. -/
theorem registry_set_self (reg : Registry) (name : String) :
    Registry.set reg name (reg name) = reg := by
  funext n
  by_cases hn : n = name
  · subst hn; simp [Registry.set]
  · simp [Registry.set, hn]

/-- `_configure` on a logger that already has handlers is the identity
(the early return). -/
theorem configure_of_handlers_nonempty (st : LoggerState) (lv : Nat)
    (pr : Bool) (fm : FormatterKind) (col c : Bool) (f : Option String)
    (hne : st.handlers ≠ []) :
    ScriptLogger.configure st lv pr fm col c f = st := by
  unfold ScriptLogger.configure
  simp [hne]

/-- After `_configure` with a console or file sink requested (or handlers
already present), the handler list is nonempty. -/
theorem configure_attaches (st : LoggerState) (lv : Nat) (pr : Bool)
    (fm : FormatterKind) (col c : Bool) (f : Option String)
    (hreq : c = true ∨ f ≠ none) :
    (ScriptLogger.configure st lv pr fm col c f).handlers ≠ [] := by
  unfold ScriptLogger.configure
  by_cases he : st.handlers = []
  · rcases hreq with hc | hf
    · subst hc
      cases f <;> simp [he]
    · cases f with
      | none => exact absurd rfl hf
      | some p => cases c <;> simp [he]
  · simp [he]

/-- C1 amended. Provided the first construction attaches at least one sink
(console requested or a file path given — the defaults do), invoking the
constructor a second time with the same name, whatever its level, sink,
propagate, formatter, or colorize arguments, is a no-op on the registry:
the logger keeps exactly the sinks the single construction attached, and no
duplicate sink is ever added. -/
theorem c1_reconfiguration_is_noop (name : String)
    (l1 : Nat) (c1 : Bool) (f1 : Option String) (p1 : Bool)
    (fm1 : Option FormatterKind) (col1 : Bool)
    (l2 : Nat) (c2 : Bool) (f2 : Option String) (p2 : Bool)
    (fm2 : Option FormatterKind) (col2 : Bool)
    (reg : Registry) (hfirst : c1 = true ∨ f1 ≠ none) :
    (ScriptLogger.init name l2 c2 f2 p2 fm2 col2
        (ScriptLogger.init name l1 c1 f1 p1 fm1 col1 reg).2).2
      = (ScriptLogger.init name l1 c1 f1 p1 fm1 col1 reg).2 ∧
    ((ScriptLogger.init name l2 c2 f2 p2 fm2 col2
        (ScriptLogger.init name l1 c1 f1 p1 fm1 col1 reg).2).2 name).handlers
      = ((ScriptLogger.init name l1 c1 f1 p1 fm1 col1 reg).2 name).handlers := by
  have hreg1 : (ScriptLogger.init name l1 c1 f1 p1 fm1 col1 reg).2 name
      = ScriptLogger.configure (reg name) l1 p1 (fm1.getD FormatterKind.plain)
          col1 c1 f1 := by
    simp [ScriptLogger.init, Registry.set]
  have hne : ((ScriptLogger.init name l1 c1 f1 p1 fm1 col1 reg).2 name).handlers
      ≠ [] := by
    rw [hreg1]
    exact configure_attaches _ _ _ _ _ _ _ hfirst
  have hmain : (ScriptLogger.init name l2 c2 f2 p2 fm2 col2
      (ScriptLogger.init name l1 c1 f1 p1 fm1 col1 reg).2).2
      = (ScriptLogger.init name l1 c1 f1 p1 fm1 col1 reg).2 := by
    show Registry.set _ name (ScriptLogger.configure
      ((ScriptLogger.init name l1 c1 f1 p1 fm1 col1 reg).2 name) l2 p2
      (fm2.getD FormatterKind.plain) col2 c2 f2) = _
    rw [configure_of_handlers_nonempty _ _ _ _ _ _ _ hne, registry_set_self]
  exact ⟨hmain, by rw [hmain]⟩

/-- Witness for C1 (amended) at name `"t"`: first construction console-only,
second construction with different level, file, propagate, and colorize. -/
theorem c1_reconfiguration_is_noop_witness :
    (true = true ∨ (none : Option String) ≠ none) ∧
    ((ScriptLogger.init "t" 10 true (some "x.log") true none true
        (ScriptLogger.init "t" 20 true none false none false emptyRegistry).2).2 "t").handlers
      = ((ScriptLogger.init "t" 20 true none false none false
          emptyRegistry).2 "t").handlers :=
  ⟨Or.inl rfl,
   (c1_reconfiguration_is_noop "t" 20 true none false none false
     10 true (some "x.log") true none true emptyRegistry (Or.inl rfl)).2⟩

/-- C1 counterexample. As stated, the claim fails: a first construction with
`log_to_console=False` and no file attaches zero sinks, so a second
construction with the same name attaches a console sink — the sink count
changes from 0 to 1 instead of staying what a single construction left. -/
theorem c1_counterexample :
    (((ScriptLogger.init "t" 20 false none false none false
        emptyRegistry).2) "t").handlers.length = 0 ∧
    (((ScriptLogger.init "t" 20 true none false none false
        (ScriptLogger.init "t" 20 false none false none false
          emptyRegistry).2).2) "t").handlers.length = 1 := by
  constructor <;> rfl

/-- C8. The convenience classmethods are exactly the full constructor with
`log_to_console=True` and `log_to_file=None` (console-only) respectively
`log_to_file=log_file` (console-plus-file), and `colorize` is passed through
unchanged to the stored instance. -/
theorem c8_convenience_wrappers (name lf : String) (level : Nat)
    (prop col : Bool) (reg : Registry) :
    ScriptLogger.log_to_console name level prop col reg
      = ScriptLogger.init name level true none prop none col reg ∧
    ScriptLogger.log_to_console_and_file name lf level prop col reg
      = ScriptLogger.init name level true (some lf) prop none col reg ∧
    (ScriptLogger.log_to_console name level prop col reg).1.colorize = col ∧
    (ScriptLogger.log_to_console_and_file name lf level prop col reg).1.colorize
      = col :=
  ⟨rfl, rfl, rfl, rfl⟩

end DotfilesM1
